import Mathlib

/-!
Verification of the request-arbitration engine (`EventNode.cc`) and the
brownout log-mining reporter (`BrownoutDetectedReporter.cpp`) from the
`hardware/google/pixel` repository, as a shallow embedding in Lean 4.

Modelling conventions:
* `std::chrono::milliseconds` is modelled as `Option Nat`: `none` stands for
  the sentinel `std::chrono::milliseconds::max()` ("no finite wake"),
  `some e` for a finite number of milliseconds.
* The registered callback `update_callback_` is modelled by recording its
  invocations (argument triples) in an output list; ATRACE tracing is
  modelled by recording trace events in a separate output list.
* A `const` method that cannot mutate the object is embedded as a function
  that returns the (unchanged) state together with its observable output.
-/

namespace Perfmgr

/-- Modelled from the spec: `RequestGroup` (its class is not under `src/`;
only `EventNode.cc` calls it). Per §4.1 of the spec a group exposes whether
any member request is currently unexpired (`active`), the group's effective
expiry when active (`expiry`, `none` = no finite expiry), and its effective
request value (`requestValue`). -/
structure RequestGroup where
  active : Bool
  expiry : Option Nat
  requestValue : String
deriving Repr, DecidableEq

/-- Minimum of two optional durations, `none` acting as
`std::chrono::milliseconds::max()`. -/
def minO : Option Nat → Option Nat → Option Nat
  | none, b => b
  | some a, none => some a
  | some a, some b => some (min a b)

/-- Modelled from the spec: `RequestGroup::GetExpireTime(&expire_time)`
(not under `src/`). It returns whether the group is active and lowers
`*expire_time` to the group's effective expiry when it is; an inactive
group leaves `*expire_time` untouched (§4.1: `get_expiry() ->
(is_active, expiry)`). -/
def GetExpireTime (g : RequestGroup) (t : Option Nat) : Bool × Option Nat :=
  (g.active, if g.active then minO t g.expiry else t)

/-- State of an `EventNode` (fields of `Node` plus the callback, which is
modelled by the recorded invocation list instead of a function value). -/
structure EventNode where
  name_ : String
  node_path_ : String
  req_sorted_ : List RequestGroup
  default_val_index_ : Nat
  current_val_index_ : Nat
  reset_on_init_ : Bool
deriving Repr, DecidableEq

/-- Trace events emitted by the `ATRACE_*` macros in `EventNode::Update`. -/
inductive TraceEvent where
  | aInt (counter : String) (value : Nat)
  | aBegin (tag : String)
  | aEnd
deriving Repr, DecidableEq

/-- Used where the C++ code indexes `req_sorted_` (`operator[]` is
unchecked); all verified uses are proved in range. -/
def dummyGroup : RequestGroup := ⟨false, none, ""⟩

/-- The scan loop of `EventNode::Update` (EventNode.cc lines 46-51):
`for (i = 0; i < req_sorted_.size(); i++) if (req_sorted_[i].GetExpireTime(&expire_time)) { value_index = i; break; }`.
Arguments: remaining groups, `default_val_index_` (the initial
`value_index`), current `expire_time`, current loop index. Returns
`(value_index, expire_time, consulted)` where `consulted` counts the
`GetExpireTime` calls made (ghost instrumentation). -/
def scanLoop : List RequestGroup → Nat → Option Nat → Nat → Nat × Option Nat × Nat
  | [], d, et, _ => (d, et, 0)
  | g :: gs, d, et, i =>
    let p := GetExpireTime g et
    if p.1 then (i, p.2, 1)
    else
      let r := scanLoop gs d p.2 (i + 1)
      (r.1, r.2.1, r.2.2 + 1)

/-- `std::to_string(expire_time.count())` used in the trace tag;
`milliseconds::max().count()` is `2^63 - 1`. -/
def msCountString : Option Nat → String
  | none => "9223372036854775807"
  | some e => toString e

/-- Result of one `EventNode::Update` call: the post state, the list of
`update_callback_` invocations `(name_, node_path_, req_value)`, the ATRACE
events, the returned `expire_time`, plus ghost fields `selected` (the
computed `value_index`) and `consulted` (how many groups were queried). -/
structure UpdateResult where
  state : EventNode
  calls : List (String × String × String)
  traces : List TraceEvent
  ret : Option Nat
  selected : Nat
  consulted : Nat
deriving Repr, DecidableEq

/-- `EventNode::Update(bool)` (EventNode.cc lines 41-70). The `bool`
parameter is unused by the C++ code; `traceEnabled` models the ambient
`ATRACE_ENABLED()` condition. -/
def EventNode.Update (s : EventNode) (_unusedArg : Bool) (traceEnabled : Bool) : UpdateResult :=
  let scan := scanLoop s.req_sorted_ s.default_val_index_ none 0
  let value_index := scan.1
  let expire_time := scan.2.1
  if value_index ≠ s.current_val_index_ ∨ s.reset_on_init_ then
    let req_value := (s.req_sorted_.getD value_index dummyGroup).requestValue
    let pre :=
      if traceEnabled then
        [TraceEvent.aInt ("N:" ++ s.name_) value_index,
         TraceEvent.aBegin (s.name_ ++ ":" ++ req_value ++ ":" ++ msCountString expire_time)]
      else []
    let post := if traceEnabled then [TraceEvent.aEnd] else []
    { state := { s with current_val_index_ := value_index, reset_on_init_ := false },
      calls := [(s.name_, s.node_path_, req_value)],
      traces := pre ++ post,
      ret := expire_time,
      selected := value_index,
      consulted := scan.2.2 }
  else
    { state := s, calls := [], traces := [], ret := expire_time,
      selected := value_index, consulted := scan.2.2 }

/-- Observable output of `EventNode::DumpToFd` (writes to the fd, the
error log on a failed write, and each group's own dump). -/
inductive DumpEvent where
  | fdWrite (buf : String) (ok : Bool)
  | logError
  | groupDump (i : Nat) (pfx : String)
deriving Repr, DecidableEq

/-- `EventNode::DumpToFd(int fd) const` (EventNode.cc lines 72-87). The
method is `const`; the embedding threads the state through unchanged and
records the observable events. `writeOk` models whether
`WriteStringToFd` succeeds. -/
def EventNode.DumpToFd (s : EventNode) (writeOk : Bool) : EventNode × List DumpEvent :=
  let node_value := (s.req_sorted_.getD s.current_val_index_ dummyGroup).requestValue
  let buf := "Node Name\tEvent Path\tCurrent Index\tCurrent Value\n"
      ++ s.name_ ++ "\t" ++ s.node_path_ ++ "\t" ++ toString s.current_val_index_
      ++ "\t" ++ node_value ++ "\n"
  let headerEvents :=
    [DumpEvent.fdWrite buf writeOk] ++ (if writeOk then [] else [DumpEvent.logError])
  let groupEvents :=
    (List.range s.req_sorted_.length).map
      (fun i => DumpEvent.groupDump i ("\t\tReq" ++ toString i ++ ":\t"))
  (s, headerEvents ++ groupEvents)

end Perfmgr

namespace Pixelstats

/-! Embedding of `BrownoutDetectedReporter.cpp`. The concrete `std::regex`
patterns of that file use only literals, the classes `\S`, `\s`, `\d`,
`[0-9]`, `[A-Z1-9]`, one-or-more repetition and capture groups, and are
always used through `std::regex_match` (whole-line match); they are
embedded by a small backtracking matcher over exactly those constructs. -/

/-- C++ `\s` (default locale): space, `\t`, `\n`, `\v`, `\f`, `\r`. -/
def isWsChar (c : Char) : Bool :=
  c = ' ' || c = '\t' || c = '\n' || c = '\x0b' || c = '\x0c' || c = '\r'

/-- Character classes occurring in the patterns of
`BrownoutDetectedReporter.cpp`: `\s`, `\S`, `\d`/`[0-9]`, `[A-Z1-9]`. -/
inductive CharCls where
  | ws
  | nonWs
  | digit
  | upper19
deriving Repr, DecidableEq

def inCls : CharCls → Char → Bool
  | CharCls.ws, c => isWsChar c
  | CharCls.nonWs, c => !isWsChar c
  | CharCls.digit, c => c.isDigit
  | CharCls.upper19, c => ('A' ≤ c && c ≤ 'Z') || ('1' ≤ c && c ≤ '9')

/-- One token of a pattern: a literal (optionally a capture group), a
single character of a class, or a captured/uncaptured one-or-more
repetition of a class. -/
inductive RTok where
  | lit (s : String)
  | litGrp (s : String)
  | cls (k : CharCls)
  | plus (k : CharCls) (cap : Bool)
deriving Repr, DecidableEq

/-- Whole-string matching of a token list against a character list,
returning the list of capture-group texts on success. `plus` is matched
greedily with backtracking (longest repetition first), which is the
ECMAScript semantics `std::regex` uses for these patterns. -/
def matchToks : List RTok → List Char → Option (List String)
  | [], cs => if cs.isEmpty then some [] else none
  | RTok.lit s :: ts, cs =>
      if s.data.isPrefixOf cs then matchToks ts (cs.drop s.data.length) else none
  | RTok.litGrp s :: ts, cs =>
      if s.data.isPrefixOf cs then
        (matchToks ts (cs.drop s.data.length)).map (fun r => s :: r)
      else none
  | RTok.cls k :: ts, cs =>
      match cs with
      | [] => none
      | c :: rest => if inCls k c then matchToks ts rest else none
  | RTok.plus k cap :: ts, cs =>
      let maxRun := (cs.takeWhile (inCls k)).length
      (List.range maxRun).findSome? (fun j =>
        let len := maxRun - j
        (matchToks ts (cs.drop len)).map
          (fun r => if cap then String.mk (cs.take len) :: r else r))

/-- `std::regex_match(line, pattern_match, pattern)`: on success
`pattern_match[0]` is the whole line and `pattern_match[i]` (`i ≥ 1`) the
`i`-th capture group, so the result list is the line consed onto the
captures and `pattern_match.size()` is its length. -/
def regexMatch (pattern : List RTok) (line : String) : Option (List String) :=
  (matchToks pattern line.data).map (fun caps => line :: caps)

/-- `kTimestampPattern`: `^\S+\s[0-9]+:[0-9]+:[0-9]+\S+$`. -/
def kTimestampPattern : List RTok :=
  [RTok.plus CharCls.nonWs false, RTok.cls CharCls.ws,
   RTok.plus CharCls.digit false, RTok.lit ":",
   RTok.plus CharCls.digit false, RTok.lit ":",
   RTok.plus CharCls.digit false, RTok.plus CharCls.nonWs false]

/-- `kIrqPattern`: `^(\S+)\striggered\sat\s\S+$`. -/
def kIrqPattern : List RTok :=
  [RTok.plus CharCls.nonWs true, RTok.cls CharCls.ws, RTok.lit "triggered",
   RTok.cls CharCls.ws, RTok.lit "at", RTok.cls CharCls.ws,
   RTok.plus CharCls.nonWs false]

/-- `kOdpmPattern`: `^CH\d+\[(\S+)\],\s(\d+)$`. -/
def kOdpmPattern : List RTok :=
  [RTok.lit "CH", RTok.plus CharCls.digit false, RTok.lit "[",
   RTok.plus CharCls.nonWs true, RTok.lit "],", RTok.cls CharCls.ws,
   RTok.plus CharCls.digit true]

/-- `kDvfsPattern`: `^([A-Z1-9]+):(\d+)$`. -/
def kDvfsPattern : List RTok :=
  [RTok.plus CharCls.upper19 true, RTok.lit ":", RTok.plus CharCls.digit true]

/-- `kFgPattern`: `^(voltage_now):(\d+)$`. -/
def kFgPattern : List RTok :=
  [RTok.litGrp "voltage_now", RTok.lit ":", RTok.plus CharCls.digit true]

/-- `kBatteryTempPattern`: `^(battery):(\d+)$`. -/
def kBatteryTempPattern : List RTok :=
  [RTok.litGrp "battery", RTok.lit ":", RTok.plus CharCls.digit true]

/-- `kBatteryCyclePattern`: `^(battery_cycle):(\d+)$`. -/
def kBatteryCyclePattern : List RTok :=
  [RTok.litGrp "battery_cycle", RTok.lit ":", RTok.plus CharCls.digit true]

/-- `kBatterySocPattern`: `^(soc):(\d+)$`. -/
def kBatterySocPattern : List RTok :=
  [RTok.litGrp "soc", RTok.lit ":", RTok.plus CharCls.digit true]

/-- `kAlreadyUpdatedPattern`: `^(LASTMEAL_UPDATED)$`. -/
def kAlreadyUpdatedPattern : List RTok :=
  [RTok.litGrp "LASTMEAL_UPDATED"]

def READING_IDX : Nat := 2
def KEY_IDX : Nat := 0
def DEFAULT_BATTERY_TEMP : Int := 9999999
def DEFAULT_BATTERY_SOC : Int := 100
def DEFAULT_BATTERY_VOLT : Int := 5000000

/-- Decimal value of the leading digit run of `cs`, accumulator style. -/
def digitsLoop : List Char → Int → Int
  | [], acc => acc
  | c :: cs, acc =>
      if c.isDigit then digitsLoop cs (acc * 10 + ((c.toNat : Int) - ('0'.toNat : Int)))
      else acc

/-- The `int` range on the target (ILP32/LP64 Android): `std::stoi`
returns `int` and throws `std::out_of_range` outside this range. -/
def INT_MAX : Int := 2147483647
def INT_MIN : Int := -2147483648

/-- Conversion step of `std::stoi` after whitespace and sign: `none`
models a thrown exception — `std::invalid_argument` when `cs` does not
start with a digit, `std::out_of_range` when the converted value does
not fit in `int`. -/
def stoiDigits (cs : List Char) (neg : Bool) : Option Int :=
  match cs with
  | [] => none
  | c :: _ =>
    if c.isDigit then
      let v := digitsLoop cs 0
      let v := if neg then -v else v
      if v < INT_MIN ∨ INT_MAX < v then none else some v
    else none

/-- Model of `std::stoi`: skip leading whitespace and an optional sign,
then convert the leading digit run; `none` models a thrown exception
(the function does not return). In the verified call sites the argument
is a `(\d+)` capture, so only `std::out_of_range` is reachable. -/
def stoi (s : String) : Option Int :=
  match s.data.dropWhile isWsChar with
  | '-' :: rest => stoiDigits rest true
  | '+' :: rest => stoiDigits rest false
  | rest => stoiDigits rest false

/-- Model of C `atoi`: skip leading whitespace, an optional sign, then
the decimal value of the leading digit run (0 when there is none; on an
over-`int` value C `atoi` is undefined behaviour, read here at unlimited
precision). -/
def atoi (s : String) : Int :=
  match s.data.dropWhile isWsChar with
  | '-' :: rest => - digitsLoop rest 0
  | '+' :: rest => digitsLoop rest 0
  | rest => digitsLoop rest 0

/-- Modelled from the spec: the `enum BrownoutDetectedReporter::Update`
(`kUpdateMax`, `kUpdateMin`) declared in `BrownoutDetectedReporter.h`,
which is not under `src/`; the spec describes the min/max aggregation the
two flags select. -/
inductive Update where
  | kUpdateMax
  | kUpdateMin
deriving Repr, DecidableEq

/-- `BrownoutDetectedReporter::updateIfFound` (BrownoutDetectedReporter.cpp
lines 92-113): `*current_value` is modelled in-out as the second component
of the result. A `none` result models `std::stoi` throwing at line 101
(`std::out_of_range` for a matched reading beyond the `int` range): the
function does not return and the exception propagates to the caller. -/
def updateIfFound (line : String) (pattern : List RTok) (current_value : Int)
    (flag : Update) : Option (Bool × Int) :=
  match regexMatch pattern line with
  | none => some (false, current_value)
  | some pattern_match =>
    if pattern_match.length < READING_IDX + 1 then some (false, current_value)
    else
      match stoi (pattern_match.getD READING_IDX "") with
      | none => none
      | some reading =>
        match flag with
        | Update.kUpdateMax =>
            some (true, if current_value < reading then reading else current_value)
        | Update.kUpdateMin =>
            some (true, if current_value > reading then reading else current_value)

/-- `s.find(pat) != std::string::npos` for the nonempty needles used in
the IRQ branch (`splitOn` yields a single piece exactly when the needle
does not occur in `s`). -/
def strFind (s pat : String) : Bool := (s.splitOn pat).length ≠ 1

/-- Modelled from the spec: values of the `enum BrownoutDetected::...`
constants from the pixelatoms protobuf, which is not under `src/`. The
claims never observe the numerals; they are chosen distinct and
nonnegative as protobuf enum values are. -/
def BrownoutDetected_SMPL_WARN : Int := 1
def BrownoutDetected_UVLO1 : Int := 2
def BrownoutDetected_UVLO2 : Int := 3
def BrownoutDetected_BATOILO : Int := 4
def BrownoutDetected_BATOILO2 : Int := 5

/-- Modelled from the spec: the IRQ index enum (`SMPL_WARN`, `UVLO1`,
`UVLO2`, `BATOILO`, `BATOILO2`) from `BrownoutDetectedReporter.h`, which
is not under `src/`; consecutive values as a C enum assigns. The claims
never observe the numerals. -/
def SMPL_WARN : Int := 0
def UVLO1 : Int := 1
def UVLO2 : Int := 2
def BATOILO : Int := 3
def BATOILO2 : Int := 4

/-- Modelled from the spec: the map `kBrownoutReason` of
BrownoutDetectedReporter.cpp lines 62-90; the keys are verbatim from the
source, the values are the `BrownoutDetected::...` protobuf enum
constants (proto not under `src/`), modelled as distinct nonnegative
numerals. The claims only observe that a found value is `≥ 0`. -/
def kBrownoutReason : List (String × Int) :=
  [("uvlo,pmic,if", 10), ("ocp,pmic,if", 11), ("ocp2,pmic,if", 12),
   ("uvlo,pmic,main", 13), ("uvlo,pmic,sub", 14), ("ocp,buck1m", 15),
   ("ocp,buck2m", 16), ("ocp,buck3m", 17), ("ocp,buck4m", 18),
   ("ocp,buck5m", 19), ("ocp,buck6m", 20), ("ocp,buck7m", 21),
   ("ocp,buck8m", 22), ("ocp,buck9m", 23), ("ocp,buck10m", 24),
   ("ocp,buck1s", 25), ("ocp,buck2s", 26), ("ocp,buck3s", 27),
   ("ocp,buck4s", 28), ("ocp,buck5s", 29), ("ocp,buck6s", 30),
   ("ocp,buck7s", 31), ("ocp,buck8s", 32), ("ocp,buck9s", 33),
   ("ocp,buck10s", 34), ("ocp,buckas", 35), ("ocp,buckbs", 36),
   ("ocp,buckcs", 37), ("ocp,buckds", 38)]

/-- `BrownoutDetectedReporter::brownoutReasonCheck` (lines 237-248).
`reasonPropValue` is the value `GetProperty(brownoutReasonProp, "")`
returns; an empty or unknown value yields `-1`. -/
def brownoutReasonCheck (reasonPropValue : String) : Int :=
  if reasonPropValue = "" then -1
  else
    match kBrownoutReason.lookup reasonPropValue with
    | none => -1
    | some v => v

/-- `parseIRQ` (lines 250-264). -/
def parseIRQ (element : String) : Int :=
  let idx := atoi element
  if idx = SMPL_WARN then BrownoutDetected_SMPL_WARN
  else if idx = UVLO1 then BrownoutDetected_UVLO1
  else if idx = UVLO2 then BrownoutDetected_UVLO2
  else if idx = BATOILO then BrownoutDetected_BATOILO
  else if idx = BATOILO2 then BrownoutDetected_BATOILO2
  else -1

/-- Sizes of the `dvfs_value_` / `odpm_value_` arrays: `uploadData`
(lines 139-199) reads `odpm_value_[0]`..`odpm_value_[23]` and
`dvfs_value_[0]`..`dvfs_value_[5]`, so `ODPM_MAX_IDX = 24` and
`DVFS_MAX_IDX = 6`. -/
def DVFS_MAX_IDX : Nat := 6
def ODPM_MAX_IDX : Nat := 24

/-- `struct BrownoutDetectedInfo`; the field defaults model the
zero-initialization `max_value = {}` at lines 275/343. -/
structure BrownoutDetectedInfo where
  triggered_irq_ : Int := 0
  triggered_timestamp_ : Int := 0
  battery_temp_ : Int := 0
  battery_soc_ : Int := 0
  battery_cycle_ : Int := 0
  voltage_now_ : Int := 0
  dvfs_value_ : List Int := List.replicate DVFS_MAX_IDX 0
  odpm_value_ : List Int := List.replicate ODPM_MAX_IDX 0
  brownout_reason_ : Int := 0
  max_curr_ : Int := 0
  evt_cnt_uvlo1_ : Int := 0
  evt_cnt_uvlo2_ : Int := 0
  evt_cnt_oilo1_ : Int := 0
  evt_cnt_oilo2_ : Int := 0
  vimon_vbatt_ : Int := 0
  vimon_ibatt_ : Int := 0
  mitigation_method_0_ : Int := 0
  mitigation_method_0_count_ : Int := 0
  mitigation_method_0_time_us_ : Int := 0
deriving Repr, DecidableEq

/-- `std::getline` against delimiter `delim`: one string per successful
extraction; the extraction at end-of-stream fails, so a trailing
delimiter yields no trailing empty field. -/
def splitDelim (delim : Char) : List Char → List Char → List String
  | [], acc => if acc.isEmpty then [] else [String.mk acc.reverse]
  | c :: cs, acc =>
      if c = delim then String.mk acc.reverse :: splitDelim delim cs []
      else splitDelim delim cs (c :: acc)

/-- The lines `std::getline(content, line)` extracts from a file body. -/
def getLines (s : String) : List String := splitDelim '\n' s.data []

/-- The fields `getline(ss, field, ',')` extracts from one CSV line. -/
def splitFields (line : String) : List String := splitDelim ',' line.data []

/-- Non-local exits of the `logBrownout` scanning loop: `earlyReturn` is
the `return;` at line 361 of the IRQ branch (a normal return of
`logBrownout`, shown unreachable), `stoiThrow` is a `std::stoi`
exception inside `updateIfFound`, which propagates out of
`logBrownout`. -/
inductive ScanExit where
  | earlyReturn
  | stoiThrow
deriving Repr, DecidableEq

/-- The body of the scanning loop of `logBrownout` (lines 359-413) for a
line that is not `LASTMEAL_UPDATED`. State: `max_value`, `odpm_index`,
`dvfs_index`; an `error` result is a non-local exit (`ScanExit`).
`parseTs` models `parseTimestamp` (`strptime`/`mktime`, libc, not under
`src/`). -/
def processLogLine (parseTs : String → Int) (line : String)
    (max_value : BrownoutDetectedInfo) (odpm_index dvfs_index : Nat) :
    Except ScanExit (BrownoutDetectedInfo × Nat × Nat) :=
  match regexMatch kIrqPattern line with
  | some pattern_match =>
    if pattern_match.length < KEY_IDX + 1 then Except.error ScanExit.earlyReturn
    else
      let irq := pattern_match.getD KEY_IDX ""
      if strFind irq "batoilo" then
        Except.ok ({ max_value with triggered_irq_ := BrownoutDetected_BATOILO },
              odpm_index, dvfs_index)
      else if strFind irq "vdroop1" then
        Except.ok ({ max_value with triggered_irq_ := BrownoutDetected_UVLO1 },
              odpm_index, dvfs_index)
      else if strFind irq "vdroop2" then
        Except.ok ({ max_value with triggered_irq_ := BrownoutDetected_UVLO2 },
              odpm_index, dvfs_index)
      else if strFind irq "smpl_gm" then
        Except.ok ({ max_value with triggered_irq_ := BrownoutDetected_SMPL_WARN },
              odpm_index, dvfs_index)
      else
        Except.ok (max_value, odpm_index, dvfs_index)
  | none =>
    if (regexMatch kTimestampPattern line).isSome then
      Except.ok ({ max_value with triggered_timestamp_ := parseTs line },
            odpm_index, dvfs_index)
    else
      match updateIfFound line kBatterySocPattern max_value.battery_soc_ Update.kUpdateMin with
      | none => Except.error ScanExit.stoiThrow
      | some socR =>
      if socR.1 then
        Except.ok ({ max_value with battery_soc_ := socR.2 }, odpm_index, dvfs_index)
      else
        match updateIfFound line kBatteryTempPattern max_value.battery_temp_ Update.kUpdateMin with
        | none => Except.error ScanExit.stoiThrow
        | some tempR =>
        if tempR.1 then
          Except.ok ({ max_value with battery_temp_ := tempR.2 }, odpm_index, dvfs_index)
        else
          match updateIfFound line kBatteryCyclePattern max_value.battery_cycle_ Update.kUpdateMax with
          | none => Except.error ScanExit.stoiThrow
          | some cycleR =>
          if cycleR.1 then
            Except.ok ({ max_value with battery_cycle_ := cycleR.2 }, odpm_index, dvfs_index)
          else
            match updateIfFound line kFgPattern max_value.voltage_now_ Update.kUpdateMin with
            | none => Except.error ScanExit.stoiThrow
            | some fgR =>
            if fgR.1 then
              Except.ok ({ max_value with voltage_now_ := fgR.2 }, odpm_index, dvfs_index)
            else
              match updateIfFound line kDvfsPattern
                  (max_value.dvfs_value_.getD dvfs_index 0) Update.kUpdateMax with
              | none => Except.error ScanExit.stoiThrow
              | some dvfsR =>
              if dvfsR.1 then
                let dvfs_next := dvfs_index + 1
                Except.ok ({ max_value with
                        dvfs_value_ := max_value.dvfs_value_.set dvfs_index dvfsR.2 },
                      odpm_index, if dvfs_next = DVFS_MAX_IDX then 0 else dvfs_next)
              else
                match updateIfFound line kOdpmPattern
                    (max_value.odpm_value_.getD odpm_index 0) Update.kUpdateMax with
                | none => Except.error ScanExit.stoiThrow
                | some odpmR =>
                if odpmR.1 then
                  let odpm_next := odpm_index + 1
                  Except.ok ({ max_value with
                          odpm_value_ := max_value.odpm_value_.set odpm_index odpmR.2 },
                        (if odpm_next = ODPM_MAX_IDX then 0 else odpm_next), dvfs_index)
                else
                  Except.ok (max_value, odpm_index, dvfs_index)

/-- The scanning loop of `logBrownout` (lines 354-414): each line is first
compared against `kAlreadyUpdatedPattern` (a match `break`s the loop with
`isAlreadyUpdated = true`), otherwise processed by `processLogLine`,
whose non-local exits abort the loop. A completed scan yields
`(max_value, isAlreadyUpdated)`. -/
def scanBrownoutLog (parseTs : String → Int) :
    List String → BrownoutDetectedInfo → Nat → Nat →
    Except ScanExit (BrownoutDetectedInfo × Bool)
  | [], max_value, _, _ => Except.ok (max_value, false)
  | line :: ls, max_value, odpm_index, dvfs_index =>
    if (regexMatch kAlreadyUpdatedPattern line).isSome then
      Except.ok (max_value, true)
    else
      match processLogLine parseTs line max_value odpm_index dvfs_index with
      | Except.error e => Except.error e
      | Except.ok (mv, od, dv) => scanBrownoutLog parseTs ls mv od dv

/-- The initial `max_value` of `logBrownout` / `logBrownoutCsv`
(zero-initialized, then the three defaults, then `brownout_reason_`). -/
def initialInfo (reason : Int) : BrownoutDetectedInfo :=
  { voltage_now_ := DEFAULT_BATTERY_VOLT,
    battery_soc_ := DEFAULT_BATTERY_SOC,
    battery_temp_ := DEFAULT_BATTERY_TEMP,
    brownout_reason_ := reason }

/-- `BrownoutDetectedReporter::logBrownout` (lines 334-420).
`fileContent = none` models `ReadFileToString` failing; `reasonPropValue`
is the value of the system property named `brownoutReasonProp`. An `ok`
result is `(uploaded record if any, rewritten file content if any)`:
`uploadData` only transmits the record to the stats service and
`WriteStringToFile` only persists the new content, so the pair captures
the observable effects. `Except.error ()` models a `std::stoi`
`std::out_of_range` exception propagating out of `logBrownout`: no
upload and no rewrite happen (the throw precedes line 415). The
`earlyReturn` exit of the loop is a normal return with no upload and no
rewrite. -/
def logBrownout (parseTs : String → Int) (reasonPropValue : String)
    (fileContent : Option String) :
    Except Unit (Option BrownoutDetectedInfo × Option String) :=
  match fileContent with
  | none => Except.ok (none, none)
  | some logFile =>
    let reason := brownoutReasonCheck reasonPropValue
    if reason < 0 then Except.ok (none, none)
    else
      match scanBrownoutLog parseTs (getLines logFile) (initialInfo reason) 0 0 with
      | Except.error ScanExit.earlyReturn => Except.ok (none, none)
      | Except.error ScanExit.stoiThrow => Except.error ()
      | Except.ok (max_value, isAlreadyUpdated) =>
        if isAlreadyUpdated = false ∧ max_value.battery_temp_ ≠ DEFAULT_BATTERY_TEMP then
          Except.ok (some max_value, some ("LASTMEAL_UPDATED\n" ++ logFile))
        else Except.ok (none, none)

/-- Modelled from the spec: the CSV column-index enum of
`BrownoutDetectedReporter.h` (header not under `src/`); consecutive
values as a C enum assigns. The verified claims do not depend on the
exact numerals. -/
def TIMESTAMP_IDX : Nat := 0
def IRQ_IDX : Nat := 1
def SOC_IDX : Nat := 2
def TEMP_IDX : Nat := 3
def CYCLE_IDX : Nat := 4
def VOLTAGE_IDX : Nat := 5
def DVFS_CHANNEL_0 : Nat := 6
def ODPM_CHANNEL_0 : Nat := DVFS_CHANNEL_0 + DVFS_MAX_IDX
def MAX_CURR : Nat := ODPM_CHANNEL_0 + ODPM_MAX_IDX
def EVT_CNT_IDX_OILO1 : Nat := MAX_CURR + 1
def EVT_CNT_IDX_OILO2 : Nat := MAX_CURR + 2
def EVT_CNT_IDX_UVLO1 : Nat := MAX_CURR + 3
def EVT_CNT_IDX_UVLO2 : Nat := MAX_CURR + 4
def IDX_VIMON_V : Nat := MAX_CURR + 5
def IDX_VIMON_I : Nat := MAX_CURR + 6

/-- The per-data-row body of the `logBrownoutCsv` loop (lines 296-325):
the row's fields overwrite `max_value`. `row.getD i ""` models `row[i]`
(C++ `operator[]` is unchecked; a too-short row is undefined behaviour
there, read as the empty field here, and `atoi ""` is 0). -/
def processCsvRow (parseTs : String → Int) (line : String)
    (max_value : BrownoutDetectedInfo) : BrownoutDetectedInfo :=
  let row := splitFields line
  let max_value :=
    { max_value with
      triggered_timestamp_ := parseTs (row.getD TIMESTAMP_IDX ""),
      triggered_irq_ := parseIRQ (row.getD IRQ_IDX ""),
      battery_soc_ := atoi (row.getD SOC_IDX ""),
      battery_temp_ := atoi (row.getD TEMP_IDX ""),
      battery_cycle_ := atoi (row.getD CYCLE_IDX ""),
      voltage_now_ := atoi (row.getD VOLTAGE_IDX ""),
      dvfs_value_ :=
        (List.range DVFS_MAX_IDX).map (fun i => atoi (row.getD (i + DVFS_CHANNEL_0) "")),
      odpm_value_ :=
        (List.range ODPM_MAX_IDX).map (fun i => atoi (row.getD (i + ODPM_CHANNEL_0) "")) }
  let max_value :=
    if row.length > MAX_CURR then
      { max_value with
        evt_cnt_oilo1_ := atoi (row.getD EVT_CNT_IDX_OILO1 ""),
        evt_cnt_oilo2_ := atoi (row.getD EVT_CNT_IDX_OILO2 ""),
        evt_cnt_uvlo1_ := atoi (row.getD EVT_CNT_IDX_UVLO1 ""),
        evt_cnt_uvlo2_ := atoi (row.getD EVT_CNT_IDX_UVLO2 ""),
        max_curr_ := atoi (row.getD MAX_CURR "") }
    else max_value
  if row.length > IDX_VIMON_I then
    { max_value with
      vimon_vbatt_ := atoi (row.getD IDX_VIMON_V ""),
      vimon_ibatt_ := atoi (row.getD IDX_VIMON_I "") }
  else max_value

/-- The scanning loop of `logBrownoutCsv` (lines 287-326): each line is
first compared against `kAlreadyUpdatedPattern` (a match `break`s the
loop), then `row_num` is incremented and the first row (the CSV header)
is skipped; every further row overwrites the fields via
`processCsvRow`. -/
def scanBrownoutCsv (parseTs : String → Int) :
    List String → Nat → BrownoutDetectedInfo → BrownoutDetectedInfo × Bool
  | [], _, max_value => (max_value, false)
  | line :: ls, row_num, max_value =>
    if (regexMatch kAlreadyUpdatedPattern line).isSome then
      (max_value, true)
    else
      let row_num' := row_num + 1
      if row_num' = 1 then scanBrownoutCsv parseTs ls row_num' max_value
      else scanBrownoutCsv parseTs ls row_num' (processCsvRow parseTs line max_value)

/-- `BrownoutDetectedReporter::logBrownoutCsv` (lines 266-332); same
conventions as `logBrownout`. -/
def logBrownoutCsv (parseTs : String → Int) (reasonPropValue : String)
    (fileContent : Option String) :
    Option BrownoutDetectedInfo × Option String :=
  match fileContent with
  | none => (none, none)
  | some csvFile =>
    let reason := brownoutReasonCheck reasonPropValue
    if reason < 0 then (none, none)
    else
      let r := scanBrownoutCsv parseTs (getLines csvFile) 0 (initialInfo reason)
      if r.2 = false ∧ r.1.battery_temp_ ≠ DEFAULT_BATTERY_TEMP then
        (some r.1, some ("LASTMEAL_UPDATED\n" ++ csvFile))
      else (none, none)

end Pixelstats

namespace Perfmgr

/-- Concrete node used by witness theorems: group 0 inactive, group 1
active with a finite lease, group 2 active with no finite expiry, group 3
the (inactive) default; freshly constructed with `reset_on_init_`. -/
def testGroups : List RequestGroup :=
  [⟨false, some 100, "top"⟩, ⟨true, some 500, "max"⟩, ⟨true, none, "mid"⟩,
   ⟨false, none, "dflt"⟩]

def testNode : EventNode :=
  ⟨"node0", "/dev/node0", testGroups, 3, 3, true⟩

/-- Concrete node with no active group, already settled on the default. -/
def quietNode : EventNode :=
  ⟨"node1", "/dev/node1", [⟨false, some 7, "a"⟩, ⟨false, none, "dflt"⟩], 1, 1, false⟩

end Perfmgr

namespace Perfmgr

theorem scanLoop_all_inactive :
    ∀ (gs : List RequestGroup) (d : Nat) (et : Option Nat) (i : Nat),
      gs.all (fun g => !g.active) = true → scanLoop gs d et i = (d, et, gs.length)
  | [], _, _, _, _ => rfl
  | g :: gs, d, et, i, h => by
    simp only [List.all_cons, Bool.and_eq_true, Bool.not_eq_true'] at h
    have ih := scanLoop_all_inactive gs d et (i + 1) h.2
    simp [scanLoop, GetExpireTime, h.1, ih]

theorem scanLoop_first_active :
    ∀ (gs : List RequestGroup) (d : Nat) (et : Option Nat) (i k : Nat)
      (hk : k < gs.length),
      (gs.take k).all (fun g => !g.active) = true →
      (gs.get ⟨k, hk⟩).active = true →
      scanLoop gs d et i = (i + k, minO et (gs.get ⟨k, hk⟩).expiry, k + 1)
  | [], _, _, _, k, hk, _, _ => absurd hk (Nat.not_lt_zero k)
  | g :: gs, d, et, i, 0, _, _, hact => by
    simp only [List.get] at hact ⊢
    simp [scanLoop, GetExpireTime, hact]
  | g :: gs, d, et, i, k + 1, hk, hpre, hact => by
    simp only [List.take_succ_cons, List.all_cons, Bool.and_eq_true,
      Bool.not_eq_true'] at hpre
    simp only [List.get] at hact ⊢
    have ih := scanLoop_first_active gs d et (i + 1) k
      (Nat.lt_of_succ_lt_succ hk) hpre.2 hact
    simp [scanLoop, GetExpireTime, hpre.1, ih]
    omega

theorem update_scan_outputs (s : EventNode) (b tr : Bool) :
    (s.Update b tr).selected = (scanLoop s.req_sorted_ s.default_val_index_ none 0).1 ∧
    (s.Update b tr).ret = (scanLoop s.req_sorted_ s.default_val_index_ none 0).2.1 ∧
    (s.Update b tr).consulted = (scanLoop s.req_sorted_ s.default_val_index_ none 0).2.2 := by
  unfold EventNode.Update
  by_cases h : ¬(scanLoop s.req_sorted_ s.default_val_index_ none 0).1 = s.current_val_index_ ∨
      s.reset_on_init_ = true
  · rw [if_pos h]
    exact ⟨rfl, rfl, rfl⟩
  · rw [if_neg h]
    exact ⟨rfl, rfl, rfl⟩

theorem update_state_fields (s : EventNode) (b tr : Bool) :
    (s.Update b tr).state.name_ = s.name_ ∧
    (s.Update b tr).state.node_path_ = s.node_path_ ∧
    (s.Update b tr).state.req_sorted_ = s.req_sorted_ ∧
    (s.Update b tr).state.default_val_index_ = s.default_val_index_ ∧
    (s.Update b tr).state.current_val_index_ = (s.Update b tr).selected ∧
    (s.Update b tr).state.reset_on_init_ = false := by
  unfold EventNode.Update
  by_cases h : ¬(scanLoop s.req_sorted_ s.default_val_index_ none 0).1 = s.current_val_index_ ∨
      s.reset_on_init_ = true
  · rw [if_pos h]
    exact ⟨rfl, rfl, rfl, rfl, rfl, rfl⟩
  · rw [if_neg h]
    push_neg at h
    have h2 : s.reset_on_init_ = false := by simpa using h.2
    exact ⟨rfl, rfl, rfl, rfl, h.1.symm, h2⟩

theorem update_calls_nil_of (s : EventNode) (b tr : Bool)
    (h1 : (scanLoop s.req_sorted_ s.default_val_index_ none 0).1 = s.current_val_index_)
    (h2 : s.reset_on_init_ = false) :
    (s.Update b tr).calls = [] := by
  have hneg : ¬(¬(scanLoop s.req_sorted_ s.default_val_index_ none 0).1 = s.current_val_index_ ∨
      s.reset_on_init_ = true) := by
    push_neg
    exact ⟨h1, by simp [h2]⟩
  unfold EventNode.Update
  rw [if_neg hneg]

theorem update_second_calls_nil (s : EventNode) (b tr b' tr' : Bool) :
    ((s.Update b tr).state.Update b' tr').calls = [] := by
  obtain ⟨-, -, hreq, hdef, hcur, hres⟩ := update_state_fields s b tr
  obtain ⟨hsel, -, -⟩ := update_scan_outputs s b tr
  apply update_calls_nil_of
  · rw [hreq, hdef, hcur, hsel]
  · exact hres

theorem update_calls_length_le_one (s : EventNode) (b tr : Bool) :
    (s.Update b tr).calls.length ≤ 1 := by
  unfold EventNode.Update
  by_cases h : ¬(scanLoop s.req_sorted_ s.default_val_index_ none 0).1 = s.current_val_index_ ∨
      s.reset_on_init_ = true
  · rw [if_pos h]
    exact Nat.le_refl 1
  · rw [if_neg h]
    exact Nat.zero_le 1

theorem scanLoop_sel_bound :
    ∀ (gs : List RequestGroup) (d : Nat) (et : Option Nat) (i : Nat),
      (scanLoop gs d et i).1 = d ∨
        (i ≤ (scanLoop gs d et i).1 ∧ (scanLoop gs d et i).1 < i + gs.length)
  | [], _, _, _ => Or.inl rfl
  | g :: gs, d, et, i => by
    by_cases hg : g.active = true
    · right
      simp [scanLoop, GetExpireTime, hg]
    · have hg' : g.active = false := by simpa using hg
      have ih := scanLoop_sel_bound gs d et (i + 1)
      simp only [scanLoop, GetExpireTime, hg', Bool.false_eq_true, if_false, List.length_cons]
      rcases ih with h | h
      · exact Or.inl h
      · right
        constructor <;> omega

/-- C1: for every node state, `Update` selects the index of the first
group in `req_sorted_` (scanned from index 0 upward) whose
`GetExpireTime` reports it active, consulting exactly the groups up to
and including it, and selects `default_val_index_` (after consulting all
groups) when no group reports active. -/
theorem update_highest_priority_wins (s : EventNode) (b tr : Bool) :
    (∀ k (hk : k < s.req_sorted_.length),
        (s.req_sorted_.take k).all (fun g => !g.active) = true →
        (s.req_sorted_.get ⟨k, hk⟩).active = true →
        (s.Update b tr).selected = k ∧ (s.Update b tr).consulted = k + 1) ∧
    (s.req_sorted_.all (fun g => !g.active) = true →
        (s.Update b tr).selected = s.default_val_index_ ∧
        (s.Update b tr).consulted = s.req_sorted_.length) := by
  obtain ⟨hsel, -, hcon⟩ := update_scan_outputs s b tr
  constructor
  · intro k hk hpre hact
    have hs := scanLoop_first_active s.req_sorted_ s.default_val_index_ none 0 k hk hpre hact
    rw [hsel, hcon, hs]
    exact ⟨Nat.zero_add k, rfl⟩
  · intro hall
    have hs := scanLoop_all_inactive s.req_sorted_ s.default_val_index_ none 0 hall
    rw [hsel, hcon, hs]
    exact ⟨rfl, rfl⟩

/-- Witness for C1 on `testNode`: group 1 is the first active group, so
`Update` selects index 1 after consulting exactly groups 0 and 1. -/
theorem update_highest_priority_wins_witness :
    (EventNode.Update testNode false false).selected = 1 ∧
    (EventNode.Update testNode false false).consulted = 2 :=
  (update_highest_priority_wins testNode false false).1 1 (by decide) (by decide) (by decide)

/-- C2: `Update` returns the scanned `expire_time` unconditionally (the
same expression in the side-effect and no-side-effect branches); that
value is the effective expiry of the first active group when one exists
(`none`, the `milliseconds::max()` sentinel, when that group has no
finite expiry) and the untouched sentinel when no group is active. -/
theorem update_returns_next_expiry (s : EventNode) (b tr : Bool) :
    (s.Update b tr).ret = (scanLoop s.req_sorted_ s.default_val_index_ none 0).2.1 ∧
    (∀ k (hk : k < s.req_sorted_.length),
        (s.req_sorted_.take k).all (fun g => !g.active) = true →
        (s.req_sorted_.get ⟨k, hk⟩).active = true →
        (s.Update b tr).ret = (s.req_sorted_.get ⟨k, hk⟩).expiry) ∧
    (s.req_sorted_.all (fun g => !g.active) = true → (s.Update b tr).ret = none) := by
  obtain ⟨-, hret, -⟩ := update_scan_outputs s b tr
  refine ⟨hret, ?_, ?_⟩
  · intro k hk hpre hact
    have hs := scanLoop_first_active s.req_sorted_ s.default_val_index_ none 0 k hk hpre hact
    rw [hret, hs]
    rfl
  · intro hall
    have hs := scanLoop_all_inactive s.req_sorted_ s.default_val_index_ none 0 hall
    rw [hret, hs]

/-- Witness for C2: on `testNode` the winning group 1 has expiry 500 ms
and `Update` returns it; on `quietNode` no group is active and `Update`
returns the sentinel. -/
theorem update_returns_next_expiry_witness :
    (EventNode.Update testNode false false).ret = some 500 ∧
    (EventNode.Update quietNode false false).ret = none := by
  constructor
  · have h := (update_returns_next_expiry testNode false false).2.1 1 (by decide)
      (by decide) (by decide)
    rw [h]
    rfl
  · exact (update_returns_next_expiry quietNode false false).2.2 (by decide)

/-- C3: per `Update` call the callback is invoked at most once, and it is
invoked exactly when the selected index differs from `current_val_index_`
or `reset_on_init_` is set; otherwise no invocation happens. -/
theorem update_callback_at_most_once (s : EventNode) (b tr : Bool) :
    (s.Update b tr).calls.length ≤ 1 ∧
    ((s.Update b tr).calls ≠ [] ↔
      ((s.Update b tr).selected ≠ s.current_val_index_ ∨ s.reset_on_init_ = true)) := by
  refine ⟨update_calls_length_le_one s b tr, ?_⟩
  obtain ⟨hsel, -, -⟩ := update_scan_outputs s b tr
  rw [hsel]
  unfold EventNode.Update
  by_cases h : ¬(scanLoop s.req_sorted_ s.default_val_index_ none 0).1 = s.current_val_index_ ∨
      s.reset_on_init_ = true
  · rw [if_pos h]
    simpa using h
  · rw [if_neg h]
    simpa using h

/-- C4: running `Update` twice with no intervening change to the groups
performs the side effect at most once in total and never on the second
call. -/
theorem update_idempotent (s : EventNode) (b tr b' tr' : Bool) :
    ((s.Update b tr).state.Update b' tr').calls = [] ∧
    (s.Update b tr).calls.length ≤ 1 :=
  ⟨update_second_calls_nil s b tr b' tr', update_calls_length_le_one s b tr⟩

/-- C5: with `reset_on_init_` set, `Update` invokes the callback exactly
once — even though the selected index equals `current_val_index_` — and
clears `reset_on_init_`, so a repeated call performs no invocation. -/
theorem update_reset_on_init_applies_once (s : EventNode) (b tr b' tr' : Bool)
    (h : s.reset_on_init_ = true) :
    (s.Update b tr).calls.length = 1 ∧
    (s.Update b tr).state.reset_on_init_ = false ∧
    ((s.Update b tr).state.Update b' tr').calls = [] := by
  refine ⟨?_, (update_state_fields s b tr).2.2.2.2.2, update_second_calls_nil s b tr b' tr'⟩
  unfold EventNode.Update
  rw [if_pos (Or.inr h)]
  rfl

/-- Witness for C5 on `testNode` (freshly constructed, `reset_on_init_`
true, winning index equal to the current default index in `quietNode`'s
sibling scenario): one callback on the first call, none on the second. -/
theorem update_reset_on_init_applies_once_witness :
    (EventNode.Update testNode false false).calls.length = 1 ∧
    (EventNode.Update testNode false false).state.reset_on_init_ = false ∧
    ((EventNode.Update testNode false false).state.Update false false).calls = [] :=
  update_reset_on_init_applies_once testNode false false false false rfl

/-- C6: `DumpToFd` leaves the node state unchanged, attempts every
per-group dump whether or not the header write succeeded, and on a failed
write merely records the error log (the function is total — the failure
is swallowed, not propagated). -/
theorem dump_to_fd_pure (s : EventNode) (ok : Bool) :
    (s.DumpToFd ok).1 = s ∧
    (∀ i, i < s.req_sorted_.length →
        DumpEvent.groupDump i ("\t\tReq" ++ toString i ++ ":\t") ∈ (s.DumpToFd ok).2) ∧
    (ok = false → DumpEvent.logError ∈ (s.DumpToFd ok).2) := by
  refine ⟨rfl, ?_, ?_⟩
  · intro i hi
    unfold EventNode.DumpToFd
    simp only [List.mem_append, List.mem_map, List.mem_range]
    exact Or.inr ⟨i, hi, rfl⟩
  · intro hok
    subst hok
    unfold EventNode.DumpToFd
    simp

/-- Witness for C6 on `testNode` with a failing write: state unchanged,
group 2's dump still attempted, error logged. -/
theorem dump_to_fd_pure_witness :
    (EventNode.DumpToFd testNode false).1 = testNode ∧
    DumpEvent.groupDump 2 ("\t\tReq" ++ toString 2 ++ ":\t") ∈
      (EventNode.DumpToFd testNode false).2 ∧
    DumpEvent.logError ∈ (EventNode.DumpToFd testNode false).2 :=
  ⟨(dump_to_fd_pure testNode false).1,
   (dump_to_fd_pure testNode false).2.1 2 (by decide),
   (dump_to_fd_pure testNode false).2.2 rfl⟩

/-- C7: `Update` with tracing enabled and with tracing disabled produces
the same post state, the same callback invocations, the same returned
expiry, the same selected index and the same number of consulted groups;
tracing only changes the recorded trace events. -/
theorem update_trace_transparent (s : EventNode) (b : Bool) :
    (s.Update b true).state = (s.Update b false).state ∧
    (s.Update b true).calls = (s.Update b false).calls ∧
    (s.Update b true).ret = (s.Update b false).ret ∧
    (s.Update b true).selected = (s.Update b false).selected ∧
    (s.Update b true).consulted = (s.Update b false).consulted := by
  unfold EventNode.Update
  by_cases h : ¬(scanLoop s.req_sorted_ s.default_val_index_ none 0).1 = s.current_val_index_ ∨
      s.reset_on_init_ = true
  · rw [if_pos h, if_pos h]
    exact ⟨rfl, rfl, rfl, rfl, rfl⟩
  · rw [if_neg h, if_neg h]
    exact ⟨rfl, rfl, rfl, rfl, rfl⟩

/-- C9: assuming `default_val_index_ < req_sorted_.size()`, the index
`Update` selects (used for `req_sorted_[value_index]`) and the
`current_val_index_` it leaves behind (used by `DumpToFd`) are both in
range. -/
theorem update_index_in_bounds (s : EventNode) (b tr : Bool)
    (h : s.default_val_index_ < s.req_sorted_.length) :
    (s.Update b tr).selected < s.req_sorted_.length ∧
    (s.Update b tr).state.current_val_index_ < (s.Update b tr).state.req_sorted_.length := by
  obtain ⟨hsel, -, -⟩ := update_scan_outputs s b tr
  have hb := scanLoop_sel_bound s.req_sorted_ s.default_val_index_ none 0
  have h1 : (s.Update b tr).selected < s.req_sorted_.length := by
    rw [hsel]
    rcases hb with h' | h' <;> omega
  obtain ⟨-, -, hreq, -, hcur, -⟩ := update_state_fields s b tr
  refine ⟨h1, ?_⟩
  rw [hcur, hreq]
  exact h1

/-- Witness for C9 on `testNode` (default index 3, four groups). -/
theorem update_index_in_bounds_witness :
    (EventNode.Update testNode false false).selected < testNode.req_sorted_.length ∧
    (EventNode.Update testNode false false).state.current_val_index_ <
      (EventNode.Update testNode false false).state.req_sorted_.length :=
  update_index_in_bounds testNode false false (by decide)

end Perfmgr

namespace Pixelstats

theorem regexMatch_some_length_pos {pattern : List RTok} {line : String}
    {m : List String} (h : regexMatch pattern line = some m) : 0 < m.length := by
  unfold regexMatch at h
  rcases hmt : matchToks pattern line.data with _ | caps
  · rw [hmt] at h
    simp at h
  · rw [hmt] at h
    simp only [Option.map_some'] at h
    cases h
    simp

theorem processLogLine_no_early_return (p : String → Int) (line : String)
    (info : BrownoutDetectedInfo) (od dv : Nat) :
    processLogLine p line info od dv ≠ Except.error ScanExit.earlyReturn := by
  unfold processLogLine
  rcases hm : regexMatch kIrqPattern line with _ | m
  · dsimp only
    repeat' split
    all_goals simp
  · have hpos := regexMatch_some_length_pos hm
    dsimp only
    rw [if_neg (by simp only [KEY_IDX]; omega)]
    repeat' split
    all_goals simp

theorem scanBrownoutLog_shape (p : String → Int) :
    ∀ (ls : List String) (info : BrownoutDetectedInfo) (od dv : Nat),
      (∃ info', scanBrownoutLog p ls info od dv =
          Except.ok (info', ls.any (fun l => (regexMatch kAlreadyUpdatedPattern l).isSome))) ∨
      scanBrownoutLog p ls info od dv = Except.error ScanExit.stoiThrow
  | [], info, _, _ => Or.inl ⟨info, rfl⟩
  | line :: ls, info, od, dv => by
    by_cases h : (regexMatch kAlreadyUpdatedPattern line).isSome = true
    · refine Or.inl ⟨info, ?_⟩
      simp [scanBrownoutLog, h]
    · rcases hp : processLogLine p line info od dv with e | ⟨mv, od', dv'⟩
      · cases e with
        | earlyReturn => exact absurd hp (processLogLine_no_early_return p line info od dv)
        | stoiThrow =>
          right
          simp [scanBrownoutLog, h, hp]
      · rcases scanBrownoutLog_shape p ls mv od' dv' with ⟨info', hrec⟩ | hrec
        · refine Or.inl ⟨info', ?_⟩
          simp [scanBrownoutLog, h, hp, hrec]
        · right
          simp [scanBrownoutLog, h, hp, hrec]

theorem scanBrownoutCsv_any (p : String → Int) :
    ∀ (ls : List String) (n : Nat) (info : BrownoutDetectedInfo),
      (scanBrownoutCsv p ls n info).2 =
        ls.any (fun l => (regexMatch kAlreadyUpdatedPattern l).isSome)
  | [], _, _ => rfl
  | line :: ls, n, info => by
    by_cases h : (regexMatch kAlreadyUpdatedPattern line).isSome = true
    · simp [scanBrownoutCsv, h]
    · by_cases h1 : n + 1 = 1
      · have ih := scanBrownoutCsv_any p ls (n + 1) info
        rw [h1] at ih
        simp [scanBrownoutCsv, h, h1, ih]
      · simp [scanBrownoutCsv, h, h1,
          scanBrownoutCsv_any p ls (n + 1) (processCsvRow p line info)]

theorem splitDelim_no_delim_prefix (d : Char) :
    ∀ (l : List Char), (∀ c ∈ l, c ≠ d) → ∀ (cs acc : List Char),
      splitDelim d (l ++ d :: cs) acc =
        String.mk (acc.reverse ++ l) :: splitDelim d cs []
  | [], _, cs, acc => by simp [splitDelim]
  | c :: l, h, cs, acc => by
    have hc : c ≠ d := h c (List.mem_cons_self c l)
    have ih := splitDelim_no_delim_prefix d l
      (fun x hx => h x (List.mem_cons_of_mem c hx)) cs (c :: acc)
    simp only [List.cons_append, splitDelim, List.append_eq]
    rw [if_neg hc, ih]
    simp

theorem getLines_prepend (c : String) :
    getLines ("LASTMEAL_UPDATED\n" ++ c) = "LASTMEAL_UPDATED" :: getLines c := by
  unfold getLines
  have hdata : ("LASTMEAL_UPDATED\n" ++ c).data =
      "LASTMEAL_UPDATED".data ++ '\n' :: c.data := by
    rw [String.data_append]
    rfl
  rw [hdata,
    splitDelim_no_delim_prefix '\n' (String.data "LASTMEAL_UPDATED") (by decide) c.data []]
  rfl

end Pixelstats

namespace Pixelstats

theorem updateIfFound_no_match (line : String) (pattern : List RTok) (cur : Int)
    (hm : regexMatch pattern line = none) (flag : Update) :
    updateIfFound line pattern cur flag = some (false, cur) := by
  unfold updateIfFound
  rw [hm]

theorem updateIfFound_short_match (line : String) (pattern : List RTok) (cur : Int)
    (m : List String) (hm : regexMatch pattern line = some m)
    (hlen : m.length < READING_IDX + 1) (flag : Update) :
    updateIfFound line pattern cur flag = some (false, cur) := by
  unfold updateIfFound
  rw [hm]
  dsimp only
  rw [if_pos hlen]

theorem updateIfFound_stoi_throw (line : String) (pattern : List RTok) (cur : Int)
    (m : List String) (hm : regexMatch pattern line = some m)
    (hlen : ¬ m.length < READING_IDX + 1)
    (hs : stoi (m.getD READING_IDX "") = none) (flag : Update) :
    updateIfFound line pattern cur flag = none := by
  unfold updateIfFound
  rw [hm]
  dsimp only
  rw [if_neg hlen, hs]

theorem updateIfFound_stoi_ok (line : String) (pattern : List RTok) (cur : Int)
    (m : List String) (r : Int) (hm : regexMatch pattern line = some m)
    (hlen : ¬ m.length < READING_IDX + 1)
    (hs : stoi (m.getD READING_IDX "") = some r) :
    updateIfFound line pattern cur Update.kUpdateMax =
      some (true, if cur < r then r else cur) ∧
    updateIfFound line pattern cur Update.kUpdateMin =
      some (true, if cur > r then r else cur) := by
  constructor <;> (unfold updateIfFound; rw [hm]; dsimp only; rw [if_neg hlen, hs])

/-- C8 counterexample: the line `battery:99999999999` matches
`kBatteryTempPattern` with `READING_IDX + 1` submatches, yet
`updateIfFound` does not return `true` — the reading exceeds `INT_MAX`,
so `std::stoi` throws `std::out_of_range` at line 101 and the function
never returns. This refutes the claim's unconditional "returns true iff
the line matches the pattern with at least `READING_IDX + 1`
submatches". -/
theorem updateIfFound_overflow_counterexample :
    regexMatch kBatteryTempPattern "battery:99999999999" =
      some ["battery:99999999999", "battery", "99999999999"] ∧
    updateIfFound "battery:99999999999" kBatteryTempPattern 0 Update.kUpdateMin = none :=
  ⟨rfl, rfl⟩

/-- C8 (amended): when the matched reading fits in `int`, `updateIfFound`
returns `true` exactly when the line matches the pattern with at least
`READING_IDX + 1` submatches; with `kUpdateMax` it overwrites
`*current_value` with the parsed reading exactly when the reading is
strictly greater (running maximum), with `kUpdateMin` exactly when
strictly smaller (running minimum); on a non-matching line the value is
unchanged; and on a matching line whose reading makes `std::stoi` throw
the function does not return. -/
theorem updateIfFound_running_minmax (line : String) (pattern : List RTok) (cur : Int) :
    (∀ flag, (∃ v, updateIfFound line pattern cur flag = some (true, v)) ↔
        ∃ m r, regexMatch pattern line = some m ∧ READING_IDX + 1 ≤ m.length ∧
          stoi (m.getD READING_IDX "") = some r) ∧
    (∀ m r, regexMatch pattern line = some m → READING_IDX + 1 ≤ m.length →
        stoi (m.getD READING_IDX "") = some r →
        updateIfFound line pattern cur Update.kUpdateMax =
          some (true, if cur < r then r else cur) ∧
        updateIfFound line pattern cur Update.kUpdateMin =
          some (true, if cur > r then r else cur)) ∧
    (∀ m, regexMatch pattern line = some m → READING_IDX + 1 ≤ m.length →
        stoi (m.getD READING_IDX "") = none →
        ∀ flag, updateIfFound line pattern cur flag = none) ∧
    (regexMatch pattern line = none →
        ∀ flag, updateIfFound line pattern cur flag = some (false, cur)) ∧
    (∀ m, regexMatch pattern line = some m → m.length < READING_IDX + 1 →
        ∀ flag, updateIfFound line pattern cur flag = some (false, cur)) := by
  rcases hm : regexMatch pattern line with _ | m
  · refine ⟨?_, ?_, ?_, ?_, ?_⟩
    · intro flag
      constructor
      · rintro ⟨v, hv⟩
        rw [updateIfFound_no_match line pattern cur hm flag] at hv
        simp at hv
      · rintro ⟨m, r, hm', -, -⟩
        exact Option.noConfusion hm'
    · intro m r hsome
      exact Option.noConfusion hsome
    · intro m hsome
      exact Option.noConfusion hsome
    · intro _ flag
      exact updateIfFound_no_match line pattern cur hm flag
    · intro m hsome
      exact Option.noConfusion hsome
  · by_cases hlen : m.length < READING_IDX + 1
    · refine ⟨?_, ?_, ?_, ?_, ?_⟩
      · intro flag
        constructor
        · rintro ⟨v, hv⟩
          rw [updateIfFound_short_match line pattern cur m hm hlen flag] at hv
          simp at hv
        · rintro ⟨m', r, hm', hlen', -⟩
          cases hm'
          omega
      · intro m' r hm' hlen'
        cases hm'
        omega
      · intro m' hm' hlen'
        cases hm'
        omega
      · intro hnone
        exact Option.noConfusion hnone
      · intro m' hm' _ flag
        cases hm'
        exact updateIfFound_short_match line pattern cur m hm hlen flag
    · rcases hs : stoi (m.getD READING_IDX "") with _ | r
      · refine ⟨?_, ?_, ?_, ?_, ?_⟩
        · intro flag
          constructor
          · rintro ⟨v, hv⟩
            rw [updateIfFound_stoi_throw line pattern cur m hm hlen hs flag] at hv
            exact Option.noConfusion hv
          · rintro ⟨m', r, hm', -, hs'⟩
            cases hm'
            rw [hs] at hs'
            exact Option.noConfusion hs'
        · intro m' r hm' _ hs'
          cases hm'
          rw [hs] at hs'
          exact Option.noConfusion hs'
        · intro m' hm' _ _ flag
          cases hm'
          exact updateIfFound_stoi_throw line pattern cur m hm hlen hs flag
        · intro hnone
          exact Option.noConfusion hnone
        · intro m' hm' hlen'
          cases hm'
          omega
      · refine ⟨?_, ?_, ?_, ?_, ?_⟩
        · intro flag
          constructor
          · intro _
            exact ⟨m, r, rfl, by omega, hs⟩
          · intro _
            cases flag
            · exact ⟨_, (updateIfFound_stoi_ok line pattern cur m r hm hlen hs).1⟩
            · exact ⟨_, (updateIfFound_stoi_ok line pattern cur m r hm hlen hs).2⟩
        · intro m' r' hm' _ hs'
          cases hm'
          rw [hs] at hs'
          cases hs'
          exact updateIfFound_stoi_ok line pattern cur m r hm hlen hs
        · intro m' hm' _ hs'
          cases hm'
          rw [hs] at hs'
          exact Option.noConfusion hs'
        · intro hnone
          exact Option.noConfusion hnone
        · intro m' hm' hlen'
          cases hm'
          omega

/-- Witness for C8 (amended) on the battery-temperature pattern:
`battery:42` matches with three submatches and an in-range reading,
lowers a larger running minimum to 42, leaves a smaller one at 10; a
non-matching line changes nothing; and the over-`INT_MAX` line makes the
call throw. -/
theorem updateIfFound_running_minmax_witness :
    (∃ v, updateIfFound "battery:42" kBatteryTempPattern 9999999 Update.kUpdateMin =
      some (true, v)) ∧
    updateIfFound "battery:42" kBatteryTempPattern 9999999 Update.kUpdateMin =
      some (true, 42) ∧
    updateIfFound "battery:42" kBatteryTempPattern 10 Update.kUpdateMin = some (true, 10) ∧
    updateIfFound "no match" kBatteryTempPattern 5 Update.kUpdateMax = some (false, 5) ∧
    updateIfFound "battery:99999999999" kBatteryTempPattern 5 Update.kUpdateMax = none := by
  refine ⟨?_, ?_, ?_, ?_, ?_⟩
  · exact ((updateIfFound_running_minmax "battery:42" kBatteryTempPattern 9999999).1
      Update.kUpdateMin).mpr ⟨["battery:42", "battery", "42"], 42, rfl, by decide, rfl⟩
  · have h := ((updateIfFound_running_minmax "battery:42" kBatteryTempPattern 9999999).2.1
      ["battery:42", "battery", "42"] 42 rfl (by decide) rfl).2
    rw [h]
    rfl
  · have h := ((updateIfFound_running_minmax "battery:42" kBatteryTempPattern 10).2.1
      ["battery:42", "battery", "42"] 42 rfl (by decide) rfl).2
    rw [h]
    rfl
  · exact (updateIfFound_running_minmax "no match" kBatteryTempPattern 5).2.2.2.1 rfl
      Update.kUpdateMax
  · exact (updateIfFound_running_minmax "battery:99999999999" kBatteryTempPattern 5).2.2.1
      ["battery:99999999999", "battery", "99999999999"] rfl (by decide) rfl
      Update.kUpdateMax

end Pixelstats

namespace Pixelstats

theorem scanBrownoutLog_lastmeal_head (p : String → Int) (ls : List String)
    (info : BrownoutDetectedInfo) (od dv : Nat) :
    scanBrownoutLog p ("LASTMEAL_UPDATED" :: ls) info od dv = Except.ok (info, true) := by
  simp [scanBrownoutLog,
    show (regexMatch kAlreadyUpdatedPattern "LASTMEAL_UPDATED").isSome = true from rfl]

theorem scanBrownoutCsv_lastmeal_head (p : String → Int) (ls : List String)
    (n : Nat) (info : BrownoutDetectedInfo) :
    scanBrownoutCsv p ("LASTMEAL_UPDATED" :: ls) n info = (info, true) := by
  simp [scanBrownoutCsv,
    show (regexMatch kAlreadyUpdatedPattern "LASTMEAL_UPDATED").isSome = true from rfl]

/-- C10 counterexample: the readable file `battery:42\nsoc:99999999999`
has a known brownout reason, contains no `LASTMEAL_UPDATED` line, and a
battery temperature (42, different from the default) is parsed from its
first line — yet `logBrownout` performs no upload and no rewrite: the
second line's matched reading exceeds `INT_MAX`, so `std::stoi` throws
`std::out_of_range` out of the scan loop before line 415. This refutes
the claim's "uploaded and rewritten if and only if" as stated. -/
theorem logBrownout_overflow_counterexample :
    logBrownout (fun _ => 0) "uvlo,pmic,if" (some "battery:42\nsoc:99999999999") =
      Except.error () ∧
    0 ≤ brownoutReasonCheck "uvlo,pmic,if" ∧
    ((getLines "battery:42\nsoc:99999999999").any
        (fun l => (regexMatch kAlreadyUpdatedPattern l).isSome)) = false ∧
    scanBrownoutLog (fun _ => 0) ["battery:42"]
        (initialInfo (brownoutReasonCheck "uvlo,pmic,if")) 0 0 =
      Except.ok ({ initialInfo (brownoutReasonCheck "uvlo,pmic,if") with
          battery_temp_ := 42 }, false) :=
  ⟨rfl, by decide, rfl, rfl⟩

/-- C10 (amended): for `logBrownout`, the record is uploaded and the file
rewritten exactly when the file is readable, the brownout-reason property
maps to a known reason (`brownoutReasonCheck ≥ 0`), the scan completes
without a `std::stoi` throw (every matched reading fits in `int`), no
scanned line equals `LASTMEAL_UPDATED`, and a battery temperature was
parsed (`battery_temp_` differs from the default 9999999); a scan that
throws propagates the exception out of `logBrownout` with no upload and
no rewrite, and the early `return` of the IRQ branch is unreachable. For
`logBrownoutCsv` (whose readings go through `atoi`, which cannot throw)
the original guard stands unchanged. An upload rewrites the file with
`LASTMEAL_UPDATED` prepended, so a second run on the rewritten file
performs no upload and no rewrite. -/
theorem brownout_upload_at_most_once (p : String → Int) (prop : String) :
    (logBrownout p prop none = Except.ok (none, none) ∧
      logBrownoutCsv p prop none = (none, none)) ∧
    (∀ s, brownoutReasonCheck prop < 0 →
        logBrownout p prop (some s) = Except.ok (none, none) ∧
        logBrownoutCsv p prop (some s) = (none, none)) ∧
    (∀ ls info od dv,
        scanBrownoutLog p ls info od dv ≠ Except.error ScanExit.earlyReturn) ∧
    (∀ s r, 0 ≤ brownoutReasonCheck prop →
        scanBrownoutLog p (getLines s) (initialInfo (brownoutReasonCheck prop)) 0 0 =
          Except.ok r →
        r.2 = ((getLines s).any (fun l => (regexMatch kAlreadyUpdatedPattern l).isSome)) ∧
        logBrownout p prop (some s) =
          Except.ok
            (if r.2 = false ∧ r.1.battery_temp_ ≠ DEFAULT_BATTERY_TEMP then
              (some r.1, some ("LASTMEAL_UPDATED\n" ++ s))
            else (none, none))) ∧
    (∀ s, 0 ≤ brownoutReasonCheck prop →
        scanBrownoutLog p (getLines s) (initialInfo (brownoutReasonCheck prop)) 0 0 =
          Except.error ScanExit.stoiThrow →
        logBrownout p prop (some s) = Except.error ()) ∧
    (∀ s, 0 ≤ brownoutReasonCheck prop →
        (((logBrownoutCsv p prop (some s)).1.isSome = true ↔
            ((getLines s).any (fun l => (regexMatch kAlreadyUpdatedPattern l).isSome)) = false ∧
              (scanBrownoutCsv p (getLines s) 0
                  (initialInfo (brownoutReasonCheck prop))).1.battery_temp_ ≠
                DEFAULT_BATTERY_TEMP) ∧
          (logBrownoutCsv p prop (some s)).2 =
            (if (logBrownoutCsv p prop (some s)).1.isSome then
              some ("LASTMEAL_UPDATED\n" ++ s) else none))) ∧
    (∀ s, logBrownout p prop (some ("LASTMEAL_UPDATED\n" ++ s)) = Except.ok (none, none) ∧
        logBrownoutCsv p prop (some ("LASTMEAL_UPDATED\n" ++ s)) = (none, none)) := by
  refine ⟨⟨rfl, rfl⟩, ?_, ?_, ?_, ?_, ?_, ?_⟩
  · intro s hR
    exact ⟨by simp [logBrownout, hR], by simp [logBrownoutCsv, hR]⟩
  · intro ls info od dv
    rcases scanBrownoutLog_shape p ls info od dv with ⟨info', h⟩ | h <;> rw [h] <;> simp
  · intro s r hR hscan
    have hnotlt : ¬ brownoutReasonCheck prop < 0 := by omega
    rcases scanBrownoutLog_shape p (getLines s) (initialInfo (brownoutReasonCheck prop)) 0 0 with
      ⟨info', hok⟩ | hthrow
    · rw [hscan] at hok
      injection hok with hr
      subst hr
      refine ⟨rfl, ?_⟩
      simp only [logBrownout]
      rw [if_neg hnotlt, hscan]
      dsimp only
      by_cases hc : ((getLines s).any (fun l => (regexMatch kAlreadyUpdatedPattern l).isSome)) =
          false ∧ info'.battery_temp_ ≠ DEFAULT_BATTERY_TEMP
      · rw [if_pos hc, if_pos hc]
      · rw [if_neg hc, if_neg hc]
    · rw [hscan] at hthrow
      exact Except.noConfusion hthrow
  · intro s hR hthrow
    have hnotlt : ¬ brownoutReasonCheck prop < 0 := by omega
    simp only [logBrownout]
    rw [if_neg hnotlt, hthrow]
  · intro s hR
    have hnotlt : ¬ brownoutReasonCheck prop < 0 := by omega
    have hany := scanBrownoutCsv_any p (getLines s) 0 (initialInfo (brownoutReasonCheck prop))
    have hlog : logBrownoutCsv p prop (some s) =
        (if ((getLines s).any (fun l => (regexMatch kAlreadyUpdatedPattern l).isSome)) = false ∧
            (scanBrownoutCsv p (getLines s) 0
                (initialInfo (brownoutReasonCheck prop))).1.battery_temp_ ≠
              DEFAULT_BATTERY_TEMP then
          (some (scanBrownoutCsv p (getLines s) 0 (initialInfo (brownoutReasonCheck prop))).1,
            some ("LASTMEAL_UPDATED\n" ++ s))
        else (none, none)) := by
      simp only [logBrownoutCsv]
      rw [if_neg hnotlt, hany]
    refine ⟨?_, ?_⟩
    · rw [hlog]
      by_cases hc : ((getLines s).any (fun l => (regexMatch kAlreadyUpdatedPattern l).isSome)) = false ∧
          (scanBrownoutCsv p (getLines s) 0
              (initialInfo (brownoutReasonCheck prop))).1.battery_temp_ ≠ DEFAULT_BATTERY_TEMP
      · rw [if_pos hc]
        exact iff_of_true rfl hc
      · rw [if_neg hc]
        exact iff_of_false (by simp) hc
    · rw [hlog]
      by_cases hc : ((getLines s).any (fun l => (regexMatch kAlreadyUpdatedPattern l).isSome)) = false ∧
          (scanBrownoutCsv p (getLines s) 0
              (initialInfo (brownoutReasonCheck prop))).1.battery_temp_ ≠ DEFAULT_BATTERY_TEMP
      · rw [if_pos hc]
        simp
      · rw [if_neg hc]
        simp
  · intro s
    refine ⟨?_, ?_⟩
    · by_cases hR0 : brownoutReasonCheck prop < 0
      · simp [logBrownout, hR0]
      · simp only [logBrownout]
        rw [if_neg hR0, getLines_prepend s,
          scanBrownoutLog_lastmeal_head p (getLines s) (initialInfo (brownoutReasonCheck prop)) 0 0]
        simp
    · by_cases hR0 : brownoutReasonCheck prop < 0
      · simp [logBrownoutCsv, hR0]
      · simp only [logBrownoutCsv]
        rw [if_neg hR0, getLines_prepend s,
          scanBrownoutCsv_lastmeal_head p (getLines s) 0 (initialInfo (brownoutReasonCheck prop))]
        simp

/-- Witness for C10 (amended): an unknown brownout-reason yields no
upload; a readable file with no battery line yields no upload (the
default temperature is untouched); a file with an over-`INT_MAX` reading
makes `logBrownout` throw with no upload and no rewrite; a rewritten CSV
file is not uploaded again. -/
theorem brownout_upload_at_most_once_witness :
    logBrownout (fun _ => 0) "bogus" (some "battery:42") = Except.ok (none, none) ∧
    logBrownout (fun _ => 0) "uvlo,pmic,if" (some "") =
      Except.ok
        (if (initialInfo (brownoutReasonCheck "uvlo,pmic,if"), false).2 = false ∧
            (initialInfo (brownoutReasonCheck "uvlo,pmic,if"),
              false).1.battery_temp_ ≠ DEFAULT_BATTERY_TEMP then
          (some (initialInfo (brownoutReasonCheck "uvlo,pmic,if"), false).1,
            some ("LASTMEAL_UPDATED\n" ++ ""))
        else (none, none)) ∧
    logBrownout (fun _ => 0) "uvlo,pmic,if" (some "soc:99999999999") = Except.error () ∧
    logBrownoutCsv (fun _ => 0) "uvlo,pmic,if" (some ("LASTMEAL_UPDATED\n" ++ "x")) =
      (none, none) := by
  refine ⟨?_, ?_, ?_, ?_⟩
  · exact ((brownout_upload_at_most_once (fun _ => 0) "bogus").2.1 "battery:42" (by decide)).1
  · exact ((brownout_upload_at_most_once (fun _ => 0) "uvlo,pmic,if").2.2.2.1 ""
      (initialInfo (brownoutReasonCheck "uvlo,pmic,if"), false) (by decide) rfl).2
  · exact (brownout_upload_at_most_once (fun _ => 0) "uvlo,pmic,if").2.2.2.2.1
      "soc:99999999999" (by decide) rfl
  · exact ((brownout_upload_at_most_once (fun _ => 0) "uvlo,pmic,if").2.2.2.2.2.2 "x").2

end Pixelstats
